import Mathlib

/-!
Verification of the level42 payment framework (wallet.py, payments.py,
swarm.py) against its natural-language specification.

The Python code is shallowly embedded: network and provider interactions
(balance queries, single sends, batch sends) are passed in as oracle
functions, monetary amounts are rationals, and each distinct Python
`raise` site is a constructor of a structured error type carrying exactly
the data its format string interpolates.
-/

/- ### Python string primitives used by the source -/

/-- Python `str.lower()` on the embedded string. -/
def pyLower (s : String) : String :=
  String.mk (s.toList.map Char.toLower)

/-- Python `str.startswith(p)`. -/
def pyStartsWith (s p : String) : Bool :=
  p.toList.isPrefixOf s.toList

/-- Python `len(s)` (number of characters). -/
def pyLen (s : String) : Nat :=
  s.toList.length

/-- Infix search on character lists, used to embed Python `needle in hay`. -/
def listInfixOf (needle hay : List Char) : Bool :=
  match hay with
  | [] => needle.isEmpty
  | _ :: t => needle.isPrefixOf hay || listInfixOf needle t

/-- Python `needle in hay` for strings (substring containment). -/
def pyContains (hay needle : String) : Bool :=
  listInfixOf needle.toList hay.toList

/-- Python `str.strip()`: drop whitespace from both ends. -/
def pyStrip (s : String) : String :=
  String.mk (((s.toList.dropWhile Char.isWhitespace).reverse.dropWhile
    Char.isWhitespace).reverse)

namespace Wallet

/- ### level42/wallet.py -/

/-- The `Payment` dataclass of wallet.py.  Timestamps are opaque ticks. -/
structure Payment where
  amount : ℚ
  recipient : String
  tool_name : String
  timestamp : Nat
  status : String
  tx_hash : String := ""
  deriving Repr, DecidableEq

/-- Errors raised by `WalletManager.make_payment`, one constructor per
distinct `raise` site in wallet.py, carrying the data its format string
interpolates:
* `amountNotPositive`: ValueError "Payment amount must be positive";
* `balanceCheckFailed e`: RuntimeError "Failed to check balance after 3
  attempts: {e}";
* `insufficientBalance b a`: ValueError "Insufficient balance: {b} USDC,
  need {a} USDC";
* `insufficientFallback e`: ValueError "Insufficient balance for
  payment: {e}" (the bare-except fallback — note no balance figure);
* `paymentFailed e`: RuntimeError "Payment failed: {e}". -/
inductive WalletErr where
  | amountNotPositive
  | balanceCheckFailed (origMsg : String)
  | insufficientBalance (balance amount : ℚ)
  | insufficientFallback (origMsg : String)
  | paymentFailed (origMsg : String)
  deriving Repr, DecidableEq

/-- Outcome of the balance-check retry loop inside `make_payment`
(wallet.py lines 492-502): result, number of `get_balance` calls made,
and the backoff delays slept (`1 * 2 ** attempt` seconds). -/
structure BalanceCheck where
  result : Except WalletErr ℚ
  callsUsed : Nat
  delays : List Nat
  deriving Repr

/-- The `for attempt in range(3)` balance-check loop of `make_payment`:
three attempts, sleeping 1s then 2s between failures, raising
RuntimeError after the third failure.  `seq n` is the outcome of the
n-th provider balance query. -/
def checkBalanceRetry (seq : Nat → Except String ℚ) : BalanceCheck :=
  match seq 0 with
  | .ok b => ⟨.ok b, 1, []⟩
  | .error _ =>
    match seq 1 with
    | .ok b => ⟨.ok b, 2, [1]⟩
    | .error _ =>
      match seq 2 with
      | .ok b => ⟨.ok b, 3, [1, 2]⟩
      | .error e => ⟨.error (.balanceCheckFailed e), 3, [1, 2]⟩

/-- `WalletManager.get_balance` (wallet.py lines 461-471): a single
delegation to `self.network_provider.get_balance(self.address)`; the
provider's exception propagates unchanged. -/
def get_balance (seq : Nat → Except String ℚ) : Except String ℚ :=
  seq 0

/-- Stated from the spec's words, for comparison with `get_balance`
(spec 4.2: "delegates to provider; on transient failure, retries up to 3
times with exponential backoff (base 1s, doubling); exhausting retries
surfaces NetworkError").  Not a translation of the source. -/
def get_balance_per_spec (seq : Nat → Except String ℚ) : Except String ℚ :=
  match seq 0 with
  | .ok b => .ok b
  | .error _ =>
    match seq 1 with
    | .ok b => .ok b
    | .error _ =>
      match seq 2 with
      | .ok b => .ok b
      | .error _ =>
        match seq 3 with
        | .ok b => .ok b
        | .error e => .error ("NetworkError: " ++ e)

/-- Instrumented outcome of `WalletManager.make_payment`: the
result/exception, how many provider balance queries were made, and
whether `network_provider.send_payment` was invoked. -/
structure MakePaymentOut where
  result : Except WalletErr String
  balanceCalls : Nat
  sendAttempted : Bool
  deriving Repr

/-- `WalletManager.make_payment` (wallet.py lines 473-520).  `seq n` is
the n-th provider balance query outcome, `send a r` the outcome of
`network_provider.send_payment(key, r, a)`.  In the insufficiency branch
the source re-queries the balance inside a `try` whose own
`raise ValueError(... updated_balance ...)` is caught by the bare
`except:`, so the fallback message (without the fresh figure) is what
escapes, whatever the re-query returned. -/
def make_payment (seq : Nat → Except String ℚ)
    (send : ℚ → String → Except String String)
    (amount : ℚ) (recipient : String) : MakePaymentOut :=
  if amount ≤ 0 then ⟨.error .amountNotPositive, 0, false⟩
  else
    let chk := checkBalanceRetry seq
    match chk.result with
    | .error e => ⟨.error e, chk.callsUsed, false⟩
    | .ok bal =>
      if bal < amount then
        ⟨.error (.insufficientBalance bal amount), chk.callsUsed, false⟩
      else
        match send amount recipient with
        | .ok tx => ⟨.ok tx, chk.callsUsed, true⟩
        | .error e =>
          if pyContains (pyLower e) "insufficient"
              || pyContains (pyLower e) "balance" then
            ⟨.error (.insufficientFallback e), chk.callsUsed + 1, true⟩
          else
            ⟨.error (.paymentFailed e), chk.callsUsed, true⟩

/-- Wallet state relevant to `switch_network`: current network name,
derived address, and the current provider's `get_balance` method. -/
structure WalletState where
  network : String
  address : String
  provider : String → Except String ℚ

/-- Errors raised by `switch_network`:
* `buildFailed e`: `_get_network_provider` raised (unsupported network or
  provider construction failure);
* `connectFailed net e`: ConnectionError "Failed to connect to {net}
  network: {e}". -/
inductive SwitchErr where
  | buildFailed (origMsg : String)
  | connectFailed (network origMsg : String)

/-- `WalletManager.switch_network` (wallet.py lines 592-617).
`buildProvider` embeds `_get_network_provider`. -/
def switch_network (buildProvider : String → Except String (String → Except String ℚ))
    (st : WalletState) (network : String) : Except SwitchErr WalletState :=
  if pyLower network = pyLower st.network then .ok st
  else
    match buildProvider network with
    | .error e => .error (.buildFailed e)
    | .ok p =>
      match p st.address with
      | .error e => .error (.connectFailed network e)
      | .ok _ => .ok { st with network := pyLower network, provider := p }

/-- The wallet state after a `switch_network` call: the Python object is
mutated only on the success path, so a raised exception leaves the
previous state in place. -/
def switch_network_run (buildProvider : String → Except String (String → Except String ℚ))
    (st : WalletState) (network : String) : WalletState :=
  match switch_network buildProvider st network with
  | .ok st' => st'
  | .error _ => st

end Wallet

namespace Payments

/- ### level42/payments.py — PaymentProcessor -/

/-- One entry of `self.deferred_payments` (the dict built in
`add_deferred_payment`). -/
structure DeferredPayment where
  amount : ℚ
  recipient : String
  tool_name : String
  timestamp : Nat
  deriving Repr, DecidableEq

/-- Exceptions thrown by the `wallet_manager.batch_payments` call as seen
by `process_deferred_payments`: Python distinguishes `ValueError` from
any other `Exception` (payments.py lines 408 and 426). -/
inductive BatchErr where
  | valueErr (msg : String)
  | otherErr (msg : String)
  deriving Repr, DecidableEq

/-- Errors raised by `process_deferred_payments`:
* `insufficientFunds required available origMsg`: origMsg is `none` for
  the pre-check raise (line 350) and `some e` for the raise after a
  ValueError from the batch call (line 418);
* `networkError` / `paymentError` carry the formatted message. -/
inductive ProcErr where
  | insufficientFunds (required available : ℚ) (origMsg : Option String)
  | networkError (msg : String)
  | paymentError (msg : String)
  deriving Repr, DecidableEq

/-- Per-item success test of the batch result list (payments.py
line 385): `tx_hash and not tx_hash.startswith("FAILED")`. -/
def batchItemOk (tx : String) : Bool :=
  !(tx == "") && !(pyStartsWith tx "FAILED")

/-- The status/tx_hash update loop over `zip(payments, tx_hashes)`
(payments.py lines 383-390). -/
def updateFromBatch (payments : List Wallet.Payment) (tx_hashes : List String) :
    List Wallet.Payment :=
  (payments.zip tx_hashes).map fun pt =>
    if batchItemOk pt.2 then { pt.1 with status := "completed", tx_hash := pt.2 }
    else { pt.1 with status := "failed", tx_hash := pt.2 }

/-- `successful_payments` after the update loop. -/
def successCount (updated : List Wallet.Payment) : Nat :=
  (updated.filter fun p => p.status == "completed").length

/-- `failed_payments` after the update loop. -/
def failedOf (updated : List Wallet.Payment) : List Wallet.Payment :=
  updated.filter fun p => p.status == "failed"

/-- `PaymentProcessor._retry_failed_payments` (payments.py lines
444-473): one individual `make_payment` per failed item, best effort;
`retryCall a r` is the outcome of `wallet_manager.make_payment(a, r)`. -/
def retry_failed_payments (retryCall : ℚ → String → Except String String)
    (failed : List Wallet.Payment) : List Wallet.Payment :=
  failed.map fun p =>
    match retryCall p.amount p.recipient with
    | .ok tx => { p with status := "completed", tx_hash := tx }
    | .error _ => { p with status := "failed" }

/-- Observable outcome of `process_deferred_payments`: the returned
bool or raised exception, the deferred queue afterwards, and the
post-retry records handed to `_retry_failed_payments` (empty when that
helper was not invoked). -/
structure ProcOutcome where
  result : Except ProcErr Bool
  deferred : List DeferredPayment
  retried : List Wallet.Payment
  deriving Repr

/-- The `Payment` object built from a deferred entry before the batch
call (payments.py lines 361-370). -/
def mkPending (p : DeferredPayment) : Wallet.Payment :=
  ⟨p.amount, p.recipient, p.tool_name, p.timestamp, "pending", ""⟩

/-- `PaymentProcessor.process_deferred_payments` (payments.py lines
325-442).  `getBal` is the outcome of the `wallet_manager.get_balance()`
pre-check, `batchCall` of `wallet_manager.batch_payments`, `retryCall`
of the per-item `wallet_manager.make_payment` retries.  The returned
value `success_rate == 1.0` holds exactly when
`successful_payments == len(payments)` (float division of those two
nonnegative integers equals 1.0 precisely at equality). -/
def process_deferred_payments (getBal : Except String ℚ)
    (batchCall : List Wallet.Payment → Except BatchErr (List String))
    (retryCall : ℚ → String → Except String String)
    (deferred : List DeferredPayment) : ProcOutcome :=
  if deferred.isEmpty then ⟨.ok true, deferred, []⟩
  else
    let total := (deferred.map fun p => p.amount).sum
    match getBal with
    | .error e =>
      ⟨.error (.networkError ("Failed to check balance before batch processing: " ++ e)),
        deferred, []⟩
    | .ok bal =>
      if bal < total then
        ⟨.error (.insufficientFunds total bal none), deferred, []⟩
      else
        let payments := deferred.map mkPending
        match batchCall payments with
        | .ok tx_hashes =>
          let updated := updateFromBatch payments tx_hashes
          let successful := successCount updated
          let failed := failedOf updated
          let retried :=
            if !failed.isEmpty && 0 < successful then
              retry_failed_payments retryCall failed
            else []
          ⟨.ok (successful == payments.length), [], retried⟩
        | .error (.valueErr e) =>
          if pyContains (pyLower e) "insufficient" then
            ⟨.error (.insufficientFunds total bal (some e)), deferred, []⟩
          else
            ⟨.error (.paymentError ("Batch payment validation failed: " ++ e)), deferred, []⟩
        | .error (.otherErr e) =>
          if pyContains (pyLower e) "network" || pyContains (pyLower e) "connection"
              || pyContains (pyLower e) "timeout" then
            ⟨.error (.networkError ("Batch payment network error: " ++ e)), deferred, []⟩
          else
            ⟨.error (.paymentError ("Batch payment processing failed: " ++ e)), deferred, []⟩

/-- Observable outcome of `add_deferred_payment`: the ValueError message
if one was raised, the deferred queue afterwards, and the
`process_deferred_payments` outcome when the threshold auto-flush
fired. -/
structure AddOutcome where
  error : Option String
  deferred : List DeferredPayment
  processed : Option ProcOutcome

/-- `PaymentProcessor.add_deferred_payment` (payments.py lines 291-323):
validation, append, then auto-flush at the threshold of 10. -/
def add_deferred_payment (getBal : Except String ℚ)
    (batchCall : List Wallet.Payment → Except BatchErr (List String))
    (retryCall : ℚ → String → Except String String)
    (deferred : List DeferredPayment) (now : Nat)
    (amount : ℚ) (recipient tool_name : String) : AddOutcome :=
  if amount ≤ 0 then ⟨some "Payment amount must be positive", deferred, none⟩
  else if recipient == "" || !(pyStartsWith recipient "0x") || !(pyLen recipient == 42) then
    ⟨some ("Invalid recipient address format: " ++ recipient), deferred, none⟩
  else
    let q := deferred ++ [⟨amount, recipient, tool_name, now⟩]
    if 10 ≤ q.length then
      let out := process_deferred_payments getBal batchCall retryCall q
      ⟨none, out.deferred, some out⟩
    else ⟨none, q, none⟩

/- ### level42/payments.py — 402 header parsing -/

/-- The six headers `_parse_payment_headers` reads from the 402
response; `none` means the header is absent. -/
structure RespHeaders where
  x_payment_amount : Option String
  payment_amount : Option String
  x_payment_address : Option String
  payment_address : Option String
  x_tool_name : Option String
  tool_name : Option String
  deriving Repr, DecidableEq

/-- The dictionary returned by `_parse_payment_headers`. -/
structure PaymentInfo where
  amount : ℚ
  recipient : String
  tool_name : String
  deriving Repr, DecidableEq

/-- Python `a or b` on optional header values: `None` and the empty
string are falsy. -/
def pyOr (a b : Option String) : Option String :=
  match a with
  | some s => if s == "" then b else some s
  | none => b

/-- `PaymentProcessor._parse_payment_headers` (payments.py lines
176-221).  `pyFloat` embeds the Python `float()` builtin (`none` for a
ValueError/TypeError).  Note the asymmetry in the source: amount and
address use `get(X) or get(plain)` (truthiness), tool name uses
`get(X, get(plain, default))` (key presence). -/
def parse_payment_headers (pyFloat : String → Option ℚ) (h : RespHeaders) :
    Except String PaymentInfo :=
  let amount_header := pyOr h.x_payment_amount h.payment_amount
  let recipient_header := pyOr h.x_payment_address h.payment_address
  match amount_header with
  | none => .error "Missing payment amount in 402 response headers"
  | some ah =>
    if ah == "" then .error "Missing payment amount in 402 response headers"
    else
      match recipient_header with
      | none => .error "Missing payment address in 402 response headers"
      | some rh =>
        if rh == "" then .error "Missing payment address in 402 response headers"
        else
          match pyFloat ah with
          | none => .error ("Invalid payment amount: " ++ ah)
          | some amount =>
            if amount ≤ 0 then .error "Payment amount must be positive"
            else
              let recipient := pyStrip rh
              if !(pyStartsWith recipient "0x") || !(pyLen recipient == 42) then
                .error ("Invalid payment address format: " ++ recipient)
              else
                let tool := match h.x_tool_name with
                  | some t => t
                  | none =>
                    match h.tool_name with
                    | some t => t
                    | none => "unknown"
                .ok ⟨amount, recipient, tool⟩

end Payments

namespace Swarm

/- ### x402_agent/swarm.py — AgentSwarm -/

/-- The `CostSplittingMethod` enum. -/
inductive CostSplittingMethod where
  | equal
  | usage_based
  | manual
  deriving Repr, DecidableEq

/-- `AgentSwarm.split_costs` (swarm.py lines 450-488).  `members` pairs
each agent id of `self.agents` with its `self.agent_spending` value (the
two dicts always hold the same keys: `add_agent` and `remove_agent`
update them together). -/
def split_costs (members : List (String × ℚ)) (total_cost : ℚ)
    (method : CostSplittingMethod) : List (String × ℚ) :=
  if members.isEmpty then []
  else
    match method with
    | .equal => members.map fun m => (m.1, total_cost / members.length)
    | .usage_based =>
      let total_spending := (members.map fun m => m.2).sum
      if 0 < total_spending then
        members.map fun m => (m.1, total_cost * (m.2 / total_spending))
      else
        members.map fun m => (m.1, total_cost / members.length)
    | .manual => []

/-- Sum of the values of a cost distribution or spending dict
(`sum(d.values())`). -/
def valuesSum (l : List (String × ℚ)) : ℚ :=
  (l.map fun p => p.2).sum

/-- Swarm state relevant to `transfer_to_agent`: the shared-wallet flag,
the agent-id membership list, and the `agent_spending` dict as an
association list (Python dicts have unique keys; theorems assume
`Nodup` on the key list). -/
structure SwarmState where
  shared_wallet : Bool
  agents : List String
  agent_spending : List (String × ℚ)

/-- Python `dict[k] += d` on the spending dict (the key is present in
every reachable state; on an absent key Python would raise KeyError
where this map is the identity, so theorems require membership). -/
def dictAdd (sp : List (String × ℚ)) (k : String) (d : ℚ) : List (String × ℚ) :=
  match sp with
  | [] => []
  | e :: t => (if e.1 = k then (e.1, e.2 + d) else e) :: dictAdd t k d

/-- `self.agent_spending.get(agent_id, 0.0)`-style lookup, used to state
per-agent spending facts. -/
def lookupSpend (sp : List (String × ℚ)) (k : String) : ℚ :=
  ((sp.find? fun e => e.1 = k).map fun e => e.2).getD 0

/-- Observable outcome of `transfer_to_agent`: the returned reference or
raised ValueError message, the swarm state afterwards, and the number of
`wallet_manager.make_payment` calls performed. -/
structure TransferOut where
  result : Except String String
  state : SwarmState
  wallet_payments : Nat

/-- `AgentSwarm.transfer_to_agent` (swarm.py lines 522-566).
`balanceOf a` is the outcome of agent a's `get_balance()`, `makePay a r`
of `wallet_manager.make_payment(a, r)`, `addressOf` of
`wallet_manager.get_address()`. -/
def transfer_to_agent (balanceOf : String → ℚ)
    (makePay : ℚ → String → Except String String) (addressOf : String → String)
    (st : SwarmState) (fromId toId : String) (amount : ℚ) : TransferOut :=
  if fromId ∉ st.agents then
    ⟨.error ("Agent " ++ fromId ++ " not in swarm"), st, 0⟩
  else if toId ∉ st.agents then
    ⟨.error ("Agent " ++ toId ++ " not in swarm"), st, 0⟩
  else if balanceOf fromId < amount then
    ⟨.error ("Agent " ++ fromId ++ " has insufficient funds for transfer"), st, 0⟩
  else if st.shared_wallet then
    let sp1 := dictAdd st.agent_spending fromId amount
    let sp2 := if toId ∈ sp1.map Prod.fst then dictAdd sp1 toId (-amount) else sp1
    ⟨.ok ("shared_wallet_transfer_" ++ fromId ++ "_to_" ++ toId ++ "_" ++ toString amount),
      { st with agent_spending := sp2 }, 0⟩
  else
    match makePay amount (addressOf toId) with
    | .error e => ⟨.error e, st, 1⟩
    | .ok tx =>
      ⟨.ok tx, { st with agent_spending := dictAdd st.agent_spending fromId amount }, 1⟩

end Swarm

/- ### Helper lemmas -/

namespace Payments

theorem retry_preserves_ids (retryCall : ℚ → String → Except String String)
    (F : List Wallet.Payment) :
    (retry_failed_payments retryCall F).map (fun p => (p.amount, p.recipient)) =
      F.map fun p => (p.amount, p.recipient) := by
  induction F with
  | nil => rfl
  | cons p t ih =>
    simp only [retry_failed_payments, List.map_cons] at *
    cases hr : retryCall p.amount p.recipient with
    | error e => simp [hr, ih]
    | ok tx => simp [hr, ih]

theorem successCount_updateFromBatch (P : List Wallet.Payment) (T : List String) :
    successCount (updateFromBatch P T) = (P.zip T).countP fun pt => batchItemOk pt.2 := by
  unfold updateFromBatch successCount
  generalize P.zip T = l
  induction l with
  | nil => rfl
  | cons pt l ih =>
    cases hb : batchItemOk pt.2 with
    | true =>
      rw [List.map_cons, if_pos hb,
        List.filter_cons_of_pos (by show (("completed" : String) == "completed") = true; decide),
        List.length_cons, ih]
      simp [List.countP_cons, hb]
    | false =>
      rw [List.map_cons, if_neg (by simp [hb]),
        List.filter_cons_of_neg (by show ¬ (("failed" : String) == "completed") = true; decide),
        ih]
      simp [List.countP_cons, hb]

theorem failedOf_updateFromBatch (P : List Wallet.Payment) (T : List String) :
    failedOf (updateFromBatch P T) =
      ((P.zip T).filter fun pt => !batchItemOk pt.2).map fun pt =>
        { pt.1 with status := "failed", tx_hash := pt.2 } := by
  unfold updateFromBatch failedOf
  generalize P.zip T = l
  induction l with
  | nil => rfl
  | cons pt l ih =>
    cases hb : batchItemOk pt.2 with
    | true =>
      rw [List.map_cons, if_pos hb,
        List.filter_cons_of_neg (by show ¬ (("completed" : String) == "failed") = true; decide),
        List.filter_cons_of_neg (by simp [hb]), ih]
    | false =>
      rw [List.map_cons, if_neg (by simp [hb]),
        List.filter_cons_of_pos (by show (("failed" : String) == "failed") = true; decide),
        List.filter_cons_of_pos (by simp [hb]), List.map_cons, ih]

theorem process_ok_branch (bal : ℚ)
    (batchCall : List Wallet.Payment → Except BatchErr (List String))
    (retryCall : ℚ → String → Except String String)
    (deferred : List DeferredPayment) (T : List String)
    (hne : deferred.isEmpty = false)
    (hbal : ¬ bal < (deferred.map fun p => p.amount).sum)
    (hb : batchCall (deferred.map mkPending) = .ok T) :
    process_deferred_payments (.ok bal) batchCall retryCall deferred =
      ⟨.ok (successCount (updateFromBatch (deferred.map mkPending) T) ==
          (deferred.map mkPending).length), [],
        if !(failedOf (updateFromBatch (deferred.map mkPending) T)).isEmpty &&
            0 < successCount (updateFromBatch (deferred.map mkPending) T) then
          retry_failed_payments retryCall
            (failedOf (updateFromBatch (deferred.map mkPending) T))
        else []⟩ := by
  unfold process_deferred_payments
  simp only [hne, Bool.false_eq_true, if_false, if_neg hbal, hb]

end Payments

namespace Swarm

theorem valuesSum_nil : valuesSum [] = 0 := rfl

theorem valuesSum_cons (e : String × ℚ) (t : List (String × ℚ)) :
    valuesSum (e :: t) = e.2 + valuesSum t := rfl

theorem valuesSum_map_const (l : List (String × ℚ)) (c : ℚ) :
    valuesSum (l.map fun m => (m.1, c)) = l.length * c := by
  induction l with
  | nil => simp [valuesSum]
  | cons e t ih =>
    simp only [List.map_cons, valuesSum_cons, ih, List.length_cons]
    push_cast
    ring

theorem valuesSum_map_snd (l : List (String × ℚ)) (g : String × ℚ → ℚ) :
    valuesSum (l.map fun m => (m.1, g m)) = (l.map g).sum := by
  induction l with
  | nil => rfl
  | cons e t ih => simp only [List.map_cons, valuesSum_cons, List.sum_cons, ih]

theorem dictAdd_of_not_mem (sp : List (String × ℚ)) (k : String) (d : ℚ)
    (h : k ∉ sp.map Prod.fst) : dictAdd sp k d = sp := by
  induction sp with
  | nil => rfl
  | cons e t ih =>
    simp only [List.map_cons, List.mem_cons, not_or] at h
    have h1 : ¬ e.1 = k := fun he => h.1 he.symm
    simp only [dictAdd, if_neg h1]
    exact congrArg (List.cons e) (ih h.2)

theorem keys_dictAdd (sp : List (String × ℚ)) (k : String) (d : ℚ) :
    (dictAdd sp k d).map Prod.fst = sp.map Prod.fst := by
  induction sp with
  | nil => rfl
  | cons e t ih =>
    by_cases he : e.1 = k
    · simp only [dictAdd, if_pos he, List.map_cons, ih]
    · simp only [dictAdd, if_neg he, List.map_cons, ih]

theorem valuesSum_dictAdd (sp : List (String × ℚ)) (k : String) (d : ℚ)
    (hm : k ∈ sp.map Prod.fst) (hnd : (sp.map Prod.fst).Nodup) :
    valuesSum (dictAdd sp k d) = valuesSum sp + d := by
  induction sp with
  | nil => simp at hm
  | cons e t ih =>
    simp only [List.map_cons, List.nodup_cons] at hnd
    simp only [List.map_cons, List.mem_cons] at hm
    by_cases he : e.1 = k
    · have hnt : k ∉ t.map Prod.fst := he ▸ hnd.1
      simp only [dictAdd, if_pos he, dictAdd_of_not_mem t k d hnt, valuesSum_cons]
      ring
    · rcases hm with h | h
      · exact absurd h.symm he
      · simp only [dictAdd, if_neg he, valuesSum_cons, ih h hnd.2]
        ring

theorem lookupSpend_cons (e : String × ℚ) (t : List (String × ℚ)) (k : String) :
    lookupSpend (e :: t) k = if e.1 = k then e.2 else lookupSpend t k := by
  by_cases he : e.1 = k
  · rw [if_pos he]
    simp [lookupSpend, List.find?_cons_of_pos, he]
  · rw [if_neg he]
    unfold lookupSpend
    rw [List.find?_cons_of_neg]
    simp [he]

theorem lookupSpend_dictAdd_self (sp : List (String × ℚ)) (k : String) (d : ℚ)
    (hm : k ∈ sp.map Prod.fst) :
    lookupSpend (dictAdd sp k d) k = lookupSpend sp k + d := by
  induction sp with
  | nil => simp at hm
  | cons e t ih =>
    simp only [List.map_cons, List.mem_cons] at hm
    by_cases he : e.1 = k
    · simp [dictAdd, if_pos he, lookupSpend_cons, he]
    · rcases hm with h | h
      · exact absurd h.symm he
      · simp only [dictAdd, if_neg he, lookupSpend_cons, he, if_false, ih h]

theorem lookupSpend_dictAdd_other (sp : List (String × ℚ)) (k k' : String) (d : ℚ)
    (hne : k' ≠ k) :
    lookupSpend (dictAdd sp k d) k' = lookupSpend sp k' := by
  induction sp with
  | nil => rfl
  | cons e t ih =>
    by_cases he : e.1 = k
    · have h1 : ¬ e.1 = k' := fun h => hne (h ▸ he)
      simp only [dictAdd, if_pos he, lookupSpend_cons]
      simp [h1, ih]
    · simp only [dictAdd, if_neg he, lookupSpend_cons]
      by_cases he' : e.1 = k'
      · simp [he']
      · simp [he', ih]

end Swarm

/- ### Claim theorems -/

namespace Payments

/-- C1: For every deferred queue whose declared total exceeds the live
balance, `process_deferred_payments` raises `InsufficientFundsError`
(required = declared total, available = live balance) and the deferred
queue afterwards contains exactly the same entries, in the same order,
as before the call; no individual retries happen. -/
theorem process_deferred_rollback_on_shortfall
    (batchCall : List Wallet.Payment → Except BatchErr (List String))
    (retryCall : ℚ → String → Except String String)
    (deferred : List DeferredPayment) (bal : ℚ)
    (hne : deferred.isEmpty = false)
    (hlt : bal < (deferred.map fun p => p.amount).sum) :
    process_deferred_payments (.ok bal) batchCall retryCall deferred =
      ⟨.error (.insufficientFunds ((deferred.map fun p => p.amount).sum) bal none),
        deferred, []⟩ := by
  unfold process_deferred_payments
  simp only [hne, Bool.false_eq_true, if_false, if_pos hlt]

/-- Witness for C1: the spec scenario — deferred payments of
[30, 40, 50] (total 120) against a balance of 100. -/
theorem process_deferred_rollback_on_shortfall_witness :
    process_deferred_payments (.ok 100) (fun _ => .ok []) (fun _ _ => .ok "0x1")
        [⟨30, "0xa", "t1", 0⟩, ⟨40, "0xb", "t2", 1⟩, ⟨50, "0xc", "t3", 2⟩] =
      ⟨.error (.insufficientFunds 120 100 none),
        [⟨30, "0xa", "t1", 0⟩, ⟨40, "0xb", "t2", 1⟩, ⟨50, "0xc", "t3", 2⟩], []⟩ := by
  rw [process_deferred_rollback_on_shortfall (fun _ => .ok []) (fun _ _ => .ok "0x1")
    [⟨30, "0xa", "t1", 0⟩, ⟨40, "0xb", "t2", 1⟩, ⟨50, "0xc", "t3", 2⟩] 100
    rfl (by norm_num)]
  norm_num

/-- C2 counterexample: a two-item queue against ample balance; the batch
call reports the first item succeeded and the second failed; the
individual retry of the second item succeeds (the retried log records it
completed with its retry hash).  Every item therefore ultimately
succeeded, counting retry outcomes, and the queue is cleared — yet
`process_deferred_payments` returns false, refuting the claim that the
result counts retry outcomes. -/
theorem flush_result_ignores_retry_ce :
    process_deferred_payments (.ok 1000)
        (fun _ => .ok ["0xok1", "FAILED after 3 retries: boom"]) (fun _ _ => .ok "0xr1")
        [⟨30, "0xa", "t1", 0⟩, ⟨40, "0xb", "t2", 0⟩] =
      ⟨.ok false, [], [⟨40, "0xb", "t2", 0, "completed", "0xr1"⟩]⟩ := by
  rw [process_ok_branch 1000 (fun _ => .ok ["0xok1", "FAILED after 3 retries: boom"])
    (fun _ _ => .ok "0xr1") [⟨30, "0xa", "t1", 0⟩, ⟨40, "0xb", "t2", 0⟩]
    ["0xok1", "FAILED after 3 retries: boom"] rfl (by norm_num) rfl]
  rfl

/-- C2 as amended: for a non-empty deferred queue passing the balance
pre-check whose batch call returns a per-item result list, the returned
value is true exactly when every queued item succeeded in the batch
itself (all positions paired with a non-failure reference), the queue is
cleared either way, and the returned value does not depend on the
individual-retry outcomes at all. -/
theorem flush_result_batch_only (bal : ℚ)
    (batchCall : List Wallet.Payment → Except BatchErr (List String))
    (retryCall retryCall' : ℚ → String → Except String String)
    (deferred : List DeferredPayment) (T : List String)
    (hne : deferred.isEmpty = false)
    (hbal : ¬ bal < (deferred.map fun p => p.amount).sum)
    (hb : batchCall (deferred.map mkPending) = .ok T) :
    ((process_deferred_payments (.ok bal) batchCall retryCall deferred).result = .ok true ↔
      ((deferred.map mkPending).zip T).countP (fun pt => batchItemOk pt.2) =
        (deferred.map mkPending).length) ∧
    (process_deferred_payments (.ok bal) batchCall retryCall deferred).deferred = [] ∧
    (process_deferred_payments (.ok bal) batchCall retryCall deferred).result =
      (process_deferred_payments (.ok bal) batchCall retryCall' deferred).result := by
  rw [process_ok_branch bal batchCall retryCall deferred T hne hbal hb,
    process_ok_branch bal batchCall retryCall' deferred T hne hbal hb]
  refine ⟨?_, rfl, rfl⟩
  rw [successCount_updateFromBatch]
  constructor
  · intro h
    exact beq_iff_eq.mp (Except.ok.inj h)
  · intro h
    rw [h]
    simp

/-- Witness for C2's amended theorem: one item, batch returns a single
success; flush returns true, queue cleared, result independent of the
retry oracle. -/
theorem flush_result_batch_only_witness :
    ((process_deferred_payments (.ok 1000) (fun _ => .ok ["0xok1"]) (fun _ _ => .ok "0xr")
        [⟨30, "0xa", "t1", 0⟩]).result = .ok true ↔
      (([⟨30, "0xa", "t1", 0⟩].map mkPending).zip ["0xok1"]).countP
          (fun pt => batchItemOk pt.2) = ([⟨30, "0xa", "t1", 0⟩].map mkPending).length) ∧
    (process_deferred_payments (.ok 1000) (fun _ => .ok ["0xok1"]) (fun _ _ => .ok "0xr")
        [⟨30, "0xa", "t1", 0⟩]).deferred = [] ∧
    (process_deferred_payments (.ok 1000) (fun _ => .ok ["0xok1"]) (fun _ _ => .ok "0xr")
        [⟨30, "0xa", "t1", 0⟩]).result =
      (process_deferred_payments (.ok 1000) (fun _ => .ok ["0xok1"]) (fun _ _ => .error "down")
        [⟨30, "0xa", "t1", 0⟩]).result :=
  flush_result_batch_only 1000 (fun _ => .ok ["0xok1"]) (fun _ _ => .ok "0xr")
    (fun _ _ => .error "down") [⟨30, "0xa", "t1", 0⟩] ["0xok1"] rfl (by norm_num) rfl

/-- C3 counterexample: a one-item queue whose batch call returns a
result list consisting entirely of failure markers.  The claim predicts
an individual retry attempt for the failed item, but because the source
guards retries with `successful_payments > 0`, no retry is attempted
(the retried log is empty) even though a retry oracle is available. -/
theorem no_retry_when_all_failed_ce :
    process_deferred_payments (.ok 1000)
        (fun _ => .ok ["FAILED after 3 retries: boom"]) (fun _ _ => .ok "0xr1")
        [⟨30, "0xa", "t1", 0⟩] =
      ⟨.ok false, [], []⟩ := by
  rw [process_ok_branch 1000 (fun _ => .ok ["FAILED after 3 retries: boom"])
    (fun _ _ => .ok "0xr1") [⟨30, "0xa", "t1", 0⟩]
    ["FAILED after 3 retries: boom"] rfl (by norm_num) rfl]
  rfl

/-- C3 as amended: when the batch call returns a per-position result
list, individual retries are attempted — one per failed item, in order,
with the failed item's amount and recipient — exactly when at least one
position succeeded; when no position succeeded, no individual retry is
attempted at all. -/
theorem retry_only_with_partial_success (bal : ℚ)
    (batchCall : List Wallet.Payment → Except BatchErr (List String))
    (retryCall : ℚ → String → Except String String)
    (deferred : List DeferredPayment) (T : List String)
    (hne : deferred.isEmpty = false)
    (hbal : ¬ bal < (deferred.map fun p => p.amount).sum)
    (hb : batchCall (deferred.map mkPending) = .ok T) :
    (successCount (updateFromBatch (deferred.map mkPending) T) = 0 →
      (process_deferred_payments (.ok bal) batchCall retryCall deferred).retried = []) ∧
    (0 < successCount (updateFromBatch (deferred.map mkPending) T) →
      (process_deferred_payments (.ok bal) batchCall retryCall deferred).retried.map
          (fun p => (p.amount, p.recipient)) =
        (failedOf (updateFromBatch (deferred.map mkPending) T)).map
          (fun p => (p.amount, p.recipient))) := by
  rw [process_ok_branch bal batchCall retryCall deferred T hne hbal hb]
  constructor
  · intro h
    simp [h]
  · intro h
    by_cases hf : (failedOf (updateFromBatch (deferred.map mkPending) T)).isEmpty
    · rw [List.isEmpty_iff] at hf
      simp [hf, h]
    · have : (!(failedOf (updateFromBatch (deferred.map mkPending) T)).isEmpty &&
          decide (0 < successCount (updateFromBatch (deferred.map mkPending) T))) = true := by
        simp [hf, h]
      simp only [this, if_true]
      exact retry_preserves_ids retryCall _

/-- Witness for C3's amended theorem: two items, batch returns one
success and one failure marker; exactly the failed item (40 USDC to
0xb) is retried. -/
theorem retry_only_with_partial_success_witness :
    (successCount (updateFromBatch ([⟨30, "0xa", "t1", 0⟩, ⟨40, "0xb", "t2", 0⟩].map mkPending)
        ["0xok1", "FAILED: x"]) = 0 →
      (process_deferred_payments (.ok 1000) (fun _ => .ok ["0xok1", "FAILED: x"])
        (fun _ _ => .ok "0xr1") [⟨30, "0xa", "t1", 0⟩, ⟨40, "0xb", "t2", 0⟩]).retried = []) ∧
    (0 < successCount (updateFromBatch ([⟨30, "0xa", "t1", 0⟩, ⟨40, "0xb", "t2", 0⟩].map mkPending)
        ["0xok1", "FAILED: x"]) →
      (process_deferred_payments (.ok 1000) (fun _ => .ok ["0xok1", "FAILED: x"])
        (fun _ _ => .ok "0xr1") [⟨30, "0xa", "t1", 0⟩, ⟨40, "0xb", "t2", 0⟩]).retried.map
          (fun p => (p.amount, p.recipient)) =
        (failedOf (updateFromBatch ([⟨30, "0xa", "t1", 0⟩, ⟨40, "0xb", "t2", 0⟩].map mkPending)
          ["0xok1", "FAILED: x"])).map (fun p => (p.amount, p.recipient))) :=
  retry_only_with_partial_success 1000 (fun _ => .ok ["0xok1", "FAILED: x"])
    (fun _ _ => .ok "0xr1") [⟨30, "0xa", "t1", 0⟩, ⟨40, "0xb", "t2", 0⟩]
    ["0xok1", "FAILED: x"] rfl (by norm_num) rfl

end Payments

namespace Wallet

/-- C4 counterexample: a provider whose balance query fails once and
would succeed on the very next call.  Under the claimed retry policy
(formalised from the spec's words as `get_balance_per_spec`) the balance
5 would be returned; the source's `get_balance` makes a single
delegation and surfaces the provider error directly — no retry, no
`NetworkError` wrapper. -/
theorem get_balance_no_retry_ce :
    get_balance (fun n => if n = 0 then .error "timeout" else .ok 5) = .error "timeout" ∧
    get_balance_per_spec (fun n => if n = 0 then .error "timeout" else .ok 5) = .ok 5 :=
  ⟨rfl, rfl⟩

/-- C4 as amended: `get_balance` performs exactly one provider query —
its outcome depends only on the first call and a first-call failure
propagates unchanged (not as NetworkError).  The up-to-3-attempt retry
loop with backoff delays 1s then 2s exists only around the balance check
inside `make_payment`, and exhausting it raises RuntimeError
("Failed to check balance after 3 attempts"), not NetworkError. -/
theorem get_balance_single_call (seq seq' : Nat → Except String ℚ)
    (send : ℚ → String → Except String String) (amount : ℚ) (recipient : String)
    (e0 e1 e2 : String)
    (hfirst : seq 0 = seq' 0)
    (h0 : seq 0 = .error e0) (h1 : seq 1 = .error e1) (h2 : seq 2 = .error e2)
    (hpos : 0 < amount) :
    get_balance seq = get_balance seq' ∧
    get_balance seq = .error e0 ∧
    make_payment seq send amount recipient =
      ⟨.error (.balanceCheckFailed e2), 3, false⟩ ∧
    (checkBalanceRetry seq).delays = [1, 2] := by
  refine ⟨?_, ?_, ?_, ?_⟩
  · simp only [get_balance, hfirst]
  · simp only [get_balance, h0]
  · simp only [make_payment, checkBalanceRetry, h0, h1, h2, if_neg (not_le.mpr hpos)]
  · simp only [checkBalanceRetry, h0, h1, h2]

/-- Witness for C4's amended theorem: a provider that is down on every
balance query. -/
theorem get_balance_single_call_witness :
    get_balance (fun _ => .error "down") = get_balance (fun _ => .error "down") ∧
    get_balance (fun _ => .error "down") = .error "down" ∧
    make_payment (fun _ => .error "down") (fun _ _ => .ok "0xh") 1 "0xr" =
      ⟨.error (.balanceCheckFailed "down"), 3, false⟩ ∧
    (checkBalanceRetry (fun _ => .error "down")).delays = [1, 2] :=
  get_balance_single_call (fun _ => .error "down") (fun _ => .error "down")
    (fun _ _ => .ok "0xh") 1 "0xr" "down" "down" "down" rfl rfl rfl rfl (by norm_num)

/-- C5: when the provider's send fails with a message indicating an
insufficiency condition, `make_payment` does re-query the live balance
(the second balance call is counted), but the `raise ValueError` carrying
the freshly fetched figure sits inside a `try` whose own bare `except:`
catches it, so what escapes is always the fallback ValueError built only
from the provider's message — the fresh figure (here 2) never reaches the
caller, contradicting the spec's "raises InsufficientFunds with the fresh
figure".  Every other provider failure is raised as RuntimeError
("Payment failed"), as the claim's second half states. -/
theorem make_payment_fresh_figure_lost :
    make_payment (fun n => if n = 0 then .ok 10 else .ok 2)
        (fun _ _ => .error "insufficient funds") 5 "0xr" =
      ⟨.error (.insufficientFallback "insufficient funds"), 2, true⟩ ∧
    make_payment (fun _ => .ok 10) (fun _ _ => .error "rpc node down") 5 "0xr" =
      ⟨.error (.paymentFailed "rpc node down"), 1, true⟩ ∧
    WalletErr.insufficientFallback "insufficient funds" ≠
      WalletErr.insufficientBalance 2 5 :=
  ⟨rfl, rfl, by decide⟩

end Wallet

/-- C6: for every amount ≤ 0, `make_payment` raises the invalid-amount
ValueError with zero provider balance queries and no send attempt, and
`add_deferred_payment` raises the same ValueError leaving the deferred
queue exactly as it was, with no flush and hence no network call. -/
theorem reject_nonpositive_before_network
    (seq : Nat → Except String ℚ) (send : ℚ → String → Except String String)
    (getBal : Except String ℚ)
    (batchCall : List Wallet.Payment → Except Payments.BatchErr (List String))
    (retryCall : ℚ → String → Except String String)
    (deferred : List Payments.DeferredPayment) (now : Nat)
    (amount : ℚ) (recipient tool : String)
    (h : amount ≤ 0) :
    Wallet.make_payment seq send amount recipient =
      ⟨.error .amountNotPositive, 0, false⟩ ∧
    Payments.add_deferred_payment getBal batchCall retryCall deferred now amount recipient tool =
      ⟨some "Payment amount must be positive", deferred, none⟩ := by
  constructor
  · simp [Wallet.make_payment, h]
  · simp [Payments.add_deferred_payment, h]

/-- Witness for C6: amount 0 rejected by both entry points. -/
theorem reject_nonpositive_before_network_witness :
    Wallet.make_payment (fun _ => .ok 10) (fun _ _ => .ok "0xh") 0 "0xr" =
      ⟨.error .amountNotPositive, 0, false⟩ ∧
    Payments.add_deferred_payment (.ok 10) (fun _ => .ok []) (fun _ _ => .ok "0xh")
        [] 0 0 "0xr" "tool" =
      ⟨some "Payment amount must be positive", [], none⟩ :=
  reject_nonpositive_before_network (fun _ => .ok 10) (fun _ _ => .ok "0xh")
    (.ok 10) (fun _ => .ok []) (fun _ _ => .ok "0xh") [] 0 0 "0xr" "tool" le_rfl

namespace Swarm

/-- C7: for every non-empty membership and total cost C, the Equal and
Usage-Based cost splits both sum exactly to C (in rational arithmetic),
and Usage-Based with zero total tracked spending is literally the Equal
split. -/
theorem split_costs_sum (members : List (String × ℚ)) (C : ℚ)
    (hne : members ≠ []) :
    valuesSum (split_costs members C .equal) = C ∧
    valuesSum (split_costs members C .usage_based) = C ∧
    ((members.map fun m => m.2).sum = 0 →
      split_costs members C .usage_based = split_costs members C .equal) := by
  have hie : members.isEmpty = false := by
    cases members with
    | nil => exact absurd rfl hne
    | cons a t => rfl
  have hlen : ((members.length : ℚ)) ≠ 0 := by
    exact_mod_cast fun h => hne (List.length_eq_zero.mp h)
  have hequal : valuesSum (split_costs members C .equal) = C := by
    simp only [split_costs, hie, Bool.false_eq_true, if_false]
    rw [valuesSum_map_const]
    field_simp
  refine ⟨hequal, ?_, ?_⟩
  · simp only [split_costs, hie, Bool.false_eq_true, if_false]
    by_cases hs : 0 < (members.map fun m => m.2).sum
    · rw [if_pos hs, valuesSum_map_snd, List.sum_map_mul_left]
      simp only [div_eq_mul_inv]
      rw [List.sum_map_mul_right, mul_inv_cancel₀ (ne_of_gt hs), mul_one]
    · rw [if_neg hs, valuesSum_map_const]
      field_simp
  · intro hz
    simp only [split_costs, hie, Bool.false_eq_true, if_false]
    rw [if_neg (by rw [hz]; exact lt_irrefl 0)]

/-- Witness for C7: two members with tracked spending 1 and 3 splitting
a cost of 10. -/
theorem split_costs_sum_witness :
    valuesSum (split_costs [("a", 1), ("b", 3)] 10 .equal) = 10 ∧
    valuesSum (split_costs [("a", 1), ("b", 3)] 10 .usage_based) = 10 ∧
    (([("a", (1 : ℚ)), ("b", 3)].map fun m => m.2).sum = 0 →
      split_costs [("a", 1), ("b", 3)] 10 .usage_based =
        split_costs [("a", 1), ("b", 3)] 10 .equal) :=
  split_costs_sum [("a", 1), ("b", 3)] 10 (by simp)

/-- C10: in a shared-wallet swarm, a successful `transfer_to_agent`
performs zero `wallet_manager.make_payment` calls, returns the synthetic
reference string (not a blockchain hash), and is pure bookkeeping: the
sender's tracked spending rises by the amount, the receiver's falls by
the amount with no lower bound, and the total tracked spending over all
members is unchanged. -/
theorem shared_transfer_bookkeeping
    (balanceOf : String → ℚ) (makePay : ℚ → String → Except String String)
    (addressOf : String → String) (st : SwarmState) (fromId toId : String) (amount : ℚ)
    (hsh : st.shared_wallet = true)
    (hf : fromId ∈ st.agents) (ht : toId ∈ st.agents)
    (hbal : ¬ balanceOf fromId < amount)
    (hmf : fromId ∈ st.agent_spending.map Prod.fst)
    (hmt : toId ∈ st.agent_spending.map Prod.fst)
    (hnd : (st.agent_spending.map Prod.fst).Nodup)
    (hneq : fromId ≠ toId) :
    (transfer_to_agent balanceOf makePay addressOf st fromId toId amount).wallet_payments
      = 0 ∧
    (transfer_to_agent balanceOf makePay addressOf st fromId toId amount).result =
      .ok ("shared_wallet_transfer_" ++ fromId ++ "_to_" ++ toId ++ "_" ++ toString amount) ∧
    valuesSum
        (transfer_to_agent balanceOf makePay addressOf st fromId toId amount).state.agent_spending
      = valuesSum st.agent_spending ∧
    lookupSpend
        (transfer_to_agent balanceOf makePay addressOf st fromId toId amount).state.agent_spending
        fromId
      = lookupSpend st.agent_spending fromId + amount ∧
    lookupSpend
        (transfer_to_agent balanceOf makePay addressOf st fromId toId amount).state.agent_spending
        toId
      = lookupSpend st.agent_spending toId - amount := by
  have hmt1 : toId ∈ (dictAdd st.agent_spending fromId amount).map Prod.fst :=
    (keys_dictAdd st.agent_spending fromId amount).symm ▸ hmt
  have hnd1 : ((dictAdd st.agent_spending fromId amount).map Prod.fst).Nodup :=
    (keys_dictAdd st.agent_spending fromId amount).symm ▸ hnd
  have hstep : transfer_to_agent balanceOf makePay addressOf st fromId toId amount =
      ⟨.ok ("shared_wallet_transfer_" ++ fromId ++ "_to_" ++ toId ++ "_" ++ toString amount),
        { st with agent_spending :=
            dictAdd (dictAdd st.agent_spending fromId amount) toId (-amount) }, 0⟩ := by
    simp only [transfer_to_agent]
    rw [if_neg (not_not_intro hf), if_neg (not_not_intro ht), if_neg hbal, if_pos hsh,
      if_pos hmt1]
  rw [hstep]
  refine ⟨rfl, rfl, ?_, ?_, ?_⟩
  · rw [valuesSum_dictAdd _ toId (-amount) hmt1 hnd1,
      valuesSum_dictAdd _ fromId amount hmf hnd]
    ring
  · rw [lookupSpend_dictAdd_other _ toId fromId (-amount) hneq,
      lookupSpend_dictAdd_self _ fromId amount hmf]
  · rw [lookupSpend_dictAdd_self _ toId (-amount) hmt1,
      lookupSpend_dictAdd_other _ fromId toId amount (fun h => hneq h.symm)]
    ring

/-- Witness for C10: swarm of agents a and b sharing a wallet, both with
zero tracked spending; transferring 1 from a to b leaves the total at 0,
raises a's tracked spending to 1, and drives b's to the negative value
0 - 1. -/
theorem shared_transfer_bookkeeping_witness :
    (transfer_to_agent (fun _ => 10) (fun _ _ => .ok "0xh") (fun s => s)
        ⟨true, ["a", "b"], [("a", 0), ("b", 0)]⟩ "a" "b" 1).wallet_payments = 0 ∧
    (transfer_to_agent (fun _ => 10) (fun _ _ => .ok "0xh") (fun s => s)
        ⟨true, ["a", "b"], [("a", 0), ("b", 0)]⟩ "a" "b" 1).result =
      .ok ("shared_wallet_transfer_" ++ "a" ++ "_to_" ++ "b" ++ "_" ++ toString (1 : ℚ)) ∧
    valuesSum (transfer_to_agent (fun _ => 10) (fun _ _ => .ok "0xh") (fun s => s)
        ⟨true, ["a", "b"], [("a", 0), ("b", 0)]⟩ "a" "b" 1).state.agent_spending =
      valuesSum [("a", 0), ("b", 0)] ∧
    lookupSpend (transfer_to_agent (fun _ => 10) (fun _ _ => .ok "0xh") (fun s => s)
        ⟨true, ["a", "b"], [("a", 0), ("b", 0)]⟩ "a" "b" 1).state.agent_spending "a" =
      lookupSpend [("a", 0), ("b", 0)] "a" + 1 ∧
    lookupSpend (transfer_to_agent (fun _ => 10) (fun _ _ => .ok "0xh") (fun s => s)
        ⟨true, ["a", "b"], [("a", 0), ("b", 0)]⟩ "a" "b" 1).state.agent_spending "b" =
      lookupSpend [("a", 0), ("b", 0)] "b" - 1 :=
  shared_transfer_bookkeeping (fun _ => 10) (fun _ _ => .ok "0xh") (fun s => s)
    ⟨true, ["a", "b"], [("a", 0), ("b", 0)]⟩ "a" "b" 1 rfl (by simp) (by simp)
    (by norm_num) (by simp) (by simp) (by simp) (by simp)

end Swarm

namespace Wallet

/-- C8: `switch_network` is a no-op (returning the unchanged state) when
the requested network equals the current one case-insensitively; if it
raises — whether building the new provider failed or the verification
balance query failed — the wallet keeps its previous network and
provider; and on success the state is exactly the old one with the new
lowercased network name and the newly built, connectivity-verified
provider. -/
theorem switch_network_atomic
    (bp : String → Except String (String → Except String ℚ))
    (st : WalletState) (net : String) :
    (pyLower net = pyLower st.network → switch_network bp st net = .ok st) ∧
    (∀ e, switch_network bp st net = .error e → switch_network_run bp st net = st) ∧
    (∀ st', pyLower net ≠ pyLower st.network → switch_network bp st net = .ok st' →
      ∃ p, bp net = .ok p ∧ (∃ b, p st.address = .ok b) ∧
        st' = { network := pyLower net, address := st.address, provider := p }) := by
  refine ⟨?_, ?_, ?_⟩
  · intro h
    simp [switch_network, h]
  · intro e h
    simp [switch_network_run, h]
  · intro st' hne h
    unfold switch_network at h
    rw [if_neg hne] at h
    cases hbp : bp net with
    | error e =>
      rw [hbp] at h
      exact absurd h (by simp)
    | ok p =>
      rw [hbp] at h
      dsimp only at h
      cases hb : p st.address with
      | error e =>
        rw [hb] at h
        exact absurd h (by simp)
      | ok b =>
        rw [hb] at h
        exact ⟨p, rfl, ⟨b, hb⟩, (Except.ok.inj h).symm⟩

/-- Witness for C8: requesting the current network (in different case)
returns the state unchanged. -/
theorem switch_network_atomic_witness :
    switch_network (fun _ => .error "unreachable")
        ⟨"base", "0xme", fun _ => .ok 7⟩ "Base" =
      .ok ⟨"base", "0xme", fun _ => .ok 7⟩ :=
  (switch_network_atomic (fun _ => .error "unreachable")
    ⟨"base", "0xme", fun _ => .ok 7⟩ "Base").1 (by decide)

end Wallet

namespace Payments

/-- C9 counterexample: a 402 response carrying both header conventions
with different values — the X-prefixed amount header is present but
empty while the unprefixed one carries "30" (the float parser maps only
"30"; the empty string parses to nothing).  Parsing succeeds with amount
30, i.e. the unprefixed Payment-Amount was used, refuting the claim that
the X-prefixed header always wins and the unprefixed one is ignored.
(The X-prefixed address and tool name do win here.) -/
theorem header_precedence_empty_x_ce :
    parse_payment_headers (fun s => if s == "30" then some 30 else none)
        ⟨some "", some "30",
          some "0xaaaaaaaaaaaaaaaaaaaaaaaaaaaaaaaaaaaaaaaa",
          some "0xbbbbbbbbbbbbbbbbbbbbbbbbbbbbbbbbbbbbbbbb",
          some "toolX", some "toolY"⟩ =
      .ok ⟨30, "0xaaaaaaaaaaaaaaaaaaaaaaaaaaaaaaaaaaaaaaaa", "toolX"⟩ ∧
    (("" : String) ≠ "30") ∧
    ((fun (s : String) => if s == "30" then (some (30 : ℚ)) else none) "" = none) :=
  ⟨rfl, by decide, rfl⟩

/-- C9 as amended: the X-prefixed headers take precedence whenever the
X-prefixed amount and address values are non-empty and the X-prefixed
tool-name header is present (empty or not): parsing then ignores the
unprefixed headers entirely — it equals parsing a response carrying only
the X-prefixed headers.  (An X-prefixed amount or address that is
present but empty instead falls back to the unprefixed convention, as
the counterexample shows.) -/
theorem header_precedence_nonempty_x (pyFloat : String → Option ℚ)
    (h : RespHeaders) (va vr t : String)
    (hva : h.x_payment_amount = some va) (hva2 : va ≠ "")
    (hvr : h.x_payment_address = some vr) (hvr2 : vr ≠ "")
    (ht : h.x_tool_name = some t) :
    parse_payment_headers pyFloat h =
      parse_payment_headers pyFloat ⟨some va, none, some vr, none, some t, none⟩ := by
  have hva3 : (va == "") = false := by simp [hva2]
  have hvr3 : (vr == "") = false := by simp [hvr2]
  unfold parse_payment_headers
  rw [hva, hvr, ht]
  simp only [pyOr, hva3, hvr3, Bool.false_eq_true, if_false]

/-- Witness for C9's amended theorem: both conventions present with
different non-empty values; the unprefixed ones are ignored. -/
theorem header_precedence_nonempty_x_witness :
    parse_payment_headers (fun s => if s == "30" then some 30 else none)
        ⟨some "30", some "7",
          some "0xaaaaaaaaaaaaaaaaaaaaaaaaaaaaaaaaaaaaaaaa",
          some "0xbbbbbbbbbbbbbbbbbbbbbbbbbbbbbbbbbbbbbbbb",
          some "toolX", some "toolY"⟩ =
      parse_payment_headers (fun s => if s == "30" then some 30 else none)
        ⟨some "30", none,
          some "0xaaaaaaaaaaaaaaaaaaaaaaaaaaaaaaaaaaaaaaaa",
          none, some "toolX", none⟩ :=
  header_precedence_nonempty_x (fun s => if s == "30" then some 30 else none)
    ⟨some "30", some "7",
      some "0xaaaaaaaaaaaaaaaaaaaaaaaaaaaaaaaaaaaaaaaa",
      some "0xbbbbbbbbbbbbbbbbbbbbbbbbbbbbbbbbbbbbbbbb",
      some "toolX", some "toolY"⟩
    "30" "0xaaaaaaaaaaaaaaaaaaaaaaaaaaaaaaaaaaaaaaaa" "toolX"
    rfl (by decide) rfl (by decide) rfl

end Payments
